import Mathlib

/-!
Shallow embedding of the MVSEP Node client SDK core
(`src/retry.ts`, `src/errors.ts`, `src/client.ts`).

Machine numbers are modelled as `Nat`/`Int` (the quantities involved are
millisecond durations, HTTP status codes and attempt counters, all far from
floating-point edge cases).  Asynchronous effects are modelled by explicit
state passing: the sequence of outcomes of the underlying HTTP call is a
function `Nat → Except MVSEPErr α` (outcome of the i-th physical attempt),
wall-clock time in the polling loop advances by the sleep interval on each
iteration, and `Date.now()` / JavaScript date parsing are oracle parameters
`now : Int` and `dateParse : String → Option Int`.
-/

namespace MVSEP

/-- Error taxonomy of `src/errors.ts`, as a tagged union.  Each constructor
corresponds to one error class; fields record the data the class constructor
stores (`status`, `statusText`, `message`, response body, headers,
`retryAfter`, field `errors`, job `hash`). -/
inductive MVSEPErr where
  /-- Class `APIError(status, statusText, message, response?, headers?)`. -/
  | api (status : Nat) (statusText : String) (message : String)
        (body : Option String) (headers : List (String × String))
  /-- Class `NetworkError(message, cause?)`. -/
  | network (message : String)
  /-- Class `AuthenticationError(message)`; carries code `AUTH_ERROR`. -/
  | auth (message : String)
  /-- Class `RateLimitError(status, statusText, message, response?, retryAfter?)`.
  Note its constructor does not forward headers to `APIError`, so a
  `RateLimitError` has no `headers` property. -/
  | rateLimit (status : Nat) (statusText : String) (message : String)
        (body : Option String) (retryAfter : Option Int)
  /-- Class `ValidationError(message, errors?)`; carries code `VALIDATION_ERROR`. -/
  | validation (message : String) (errors : Option (List String))
  /-- Class `TimeoutError(message)`; carries code `TIMEOUT_ERROR`. -/
  | timeout (message : String)
  /-- Class `FileUploadError(message)`; carries code `FILE_UPLOAD_ERROR`. -/
  | fileUpload (message : String)
  /-- Class `SeparationError(message, hash?)`; carries code `SEPARATION_ERROR`. -/
  | separation (message : String) (hash : Option String)
  deriving DecidableEq, Repr

/-- The `.status` property of an error object: present on `APIError` and its
subclass `RateLimitError`, absent on the other classes. -/
def errStatus : MVSEPErr → Option Nat
  | .api s _ _ _ _ => some s
  | .rateLimit s _ _ _ _ => some s
  | _ => none

/-- The `.code` property of an error object, as set by the constructors in
`src/errors.ts` (`NetworkError` and `APIError` leave it undefined). -/
def errCode : MVSEPErr → Option String
  | .auth _ => some "AUTH_ERROR"
  | .validation _ _ => some "VALIDATION_ERROR"
  | .timeout _ => some "TIMEOUT_ERROR"
  | .fileUpload _ => some "FILE_UPLOAD_ERROR"
  | .separation _ _ => some "SEPARATION_ERROR"
  | _ => none

/-- The `.headers` property: only a plain `APIError` carries headers
(`RateLimitError` never forwards them, see `MVSEPErr.rateLimit`). -/
def errHeaders : MVSEPErr → Option (List (String × String))
  | .api _ _ _ _ hs => some hs
  | _ => none

/-- Constant `RETRYABLE_STATUS_CODES` from `src/retry.ts`. -/
def RETRYABLE_STATUS_CODES : List Nat := [408, 429, 500, 502, 503, 504]

/-- Constant `RETRYABLE_ERROR_CODES` from `src/retry.ts` (Node.js transport codes). -/
def RETRYABLE_ERROR_CODES : List String :=
  ["ECONNRESET", "ETIMEDOUT", "ENOTFOUND", "ECONNREFUSED"]

/-- Function `isRetryableError` from `src/retry.ts`: `instanceof` checks for
Network/Timeout and RateLimit, then the truthy `.status` membership test,
then the truthy `.code` membership test (truthiness: status `0` and code
`""` are falsy). -/
def isRetryableError (e : MVSEPErr) : Bool :=
  match e with
  | .network _ => true
  | .timeout _ => true
  | .rateLimit _ _ _ _ _ => true
  | _ =>
    match errStatus e with
    | some s => if s ≠ 0 ∧ s ∈ RETRYABLE_STATUS_CODES then true else
        (match errCode e with
         | some c => decide (c ≠ "" ∧ c ∈ RETRYABLE_ERROR_CODES)
         | none => false)
    | none =>
      match errCode e with
      | some c => decide (c ≠ "" ∧ c ∈ RETRYABLE_ERROR_CODES)
      | none => false

/-- Function `calculateBackoff` from `src/retry.ts`:
`Math.min(baseDelay * Math.pow(2, attempt), 32000)`. -/
def calculateBackoff (attempt : Nat) (baseDelay : Nat) : Nat :=
  min (baseDelay * 2 ^ attempt) 32000

/-- Maximal leading decimal-digit run of a character list, as a number;
`none` when the run is empty. -/
def leadingDigits (cs : List Char) : Option Nat :=
  let ds := cs.takeWhile Char.isDigit
  if ds.isEmpty then none
  else some (ds.foldl (fun a c => 10 * a + (c.toNat - 48)) 0)

/-- JavaScript `parseInt(s, 10)`: skip leading whitespace, read an optional
sign, then the maximal digit prefix; `none` models `NaN` (no digits). -/
def parseIntJS (s : String) : Option Int :=
  let cs := s.toList.dropWhile (fun c => c = ' ' ∨ c = '\t' ∨ c = '\n' ∨ c = '\r')
  match cs with
  | '-' :: rest => (leadingDigits rest).map (fun n => -(n : Int))
  | '+' :: rest => (leadingDigits rest).map (fun n => (n : Int))
  | _ => (leadingDigits cs).map (fun n => (n : Int))

/-- Function `parseRetryAfter` from `src/retry.ts`.  Here `now` models `Date.now()`;
`dateParse` models `new Date(s).getTime()` (`none` for an invalid date).
A `none` / empty-string argument is falsy (`!retryAfter`) and yields 0;
an integer parse yields seconds×1000 (no clamping); otherwise a valid date
yields `max 0 (t - now)`; otherwise 0. -/
def parseRetryAfter (now : Int) (dateParse : String → Option Int)
    (retryAfter : Option String) : Int :=
  match retryAfter with
  | none => 0
  | some s =>
    if s = "" then 0
    else
      match parseIntJS s with
      | some seconds => seconds * 1000
      | none =>
        match dateParse s with
        | some t => max 0 (t - now)
        | none => 0

/-- Case-lowered lookup of a response header (Fetch header names are
case-insensitive; the client reads them lowercased). -/
def headerLookup (headers : List (String × String)) (key : String) : Option String :=
  (headers.find? (fun p => p.1 = key)).map Prod.snd

/-- Classification of a non-2xx HTTP response into the error taxonomy,
from `makeRequest` in `src/client.ts` lines 143–178: 429 → `RateLimitError`
with parsed retry-after, 401/403 → `AuthenticationError`,
400/422 → `ValidationError` with the body's field errors, anything else →
`APIError` carrying body and headers.  `dataMessage`/`dataErrors` are the
`message`/`errors` fields of the parsed body (absent when the body is not
structured), `body` the parsed body itself. -/
def classifyStatus (now : Int) (dateParse : String → Option Int)
    (status : Nat) (statusText : String)
    (dataMessage : Option String) (dataErrors : Option (List String))
    (body : Option String) (headers : List (String × String)) : MVSEPErr :=
  if status = 429 then
    .rateLimit status statusText (dataMessage.getD "Rate limit exceeded") body
      (some (parseRetryAfter now dateParse (headerLookup headers "retry-after")))
  else if status = 401 ∨ status = 403 then
    .auth (dataMessage.getD "Authentication failed")
  else if status = 400 ∨ status = 422 then
    .validation (dataMessage.getD "Validation failed") dataErrors
  else
    .api status statusText
      (dataMessage.getD ("API request failed with status " ++ toString status))
      body headers

/-- Structure `RetryConfig` from `src/retry.ts`. -/
structure RetryConfig where
  maxRetries : Nat
  retryDelay : Nat
  timeout : Nat
  deriving DecidableEq, Repr

/-- Trace of one run of `retryWithBackoff`: how many physical attempts were
made, the sleep durations between them, and the final outcome. -/
structure RetryTrace (α : Type) where
  attempts : Nat
  delays : List Int
  outcome : Except MVSEPErr α
  deriving Repr

/-- The delay selection of `retryWithBackoff` (`src/retry.ts` lines 102–110):
a rate-limit error with truthy `retryAfter` wins, else a truthy
`headers['retry-after']` is parsed, else exponential backoff. -/
def retrySleepFor (now : Int) (dateParse : String → Option Int)
    (attempt : Nat) (retryDelay : Nat) (e : MVSEPErr) : Int :=
  match e with
  | .rateLimit _ _ _ _ (some ra) =>
    if ra ≠ 0 then ra
    else (calculateBackoff attempt retryDelay : Int)
  | _ =>
    match (errHeaders e).bind (fun hs => headerLookup hs "retry-after") with
    | some v =>
      if v ≠ "" then parseRetryAfter now dateParse (some v)
      else (calculateBackoff attempt retryDelay : Int)
    | none => (calculateBackoff attempt retryDelay : Int)

/-- The attempt loop of `retryWithBackoff`, structurally recursive on the
number of retries still allowed.  `results i` is the outcome of the i-th
invocation of `fn`; `attempt` is the current loop counter and
`remaining = maxRetries - attempt`.  On an error the loop re-throws when the
error is not retryable or this was the last allowed attempt, and otherwise
sleeps for the selected delay and retries. -/
def retryLoop {α : Type} (results : Nat → Except MVSEPErr α)
    (isRetryable : MVSEPErr → Bool) (retryDelay : Nat)
    (now : Int) (dateParse : String → Option Int)
    (attempt remaining : Nat) : RetryTrace α :=
  match results attempt with
  | .ok v => ⟨1, [], .ok v⟩
  | .error e =>
    match remaining with
    | 0 => ⟨1, [], .error e⟩
    | r + 1 =>
      if isRetryable e then
        let d := retrySleepFor now dateParse attempt retryDelay e
        let rest := retryLoop results isRetryable retryDelay now dateParse
          (attempt + 1) r
        ⟨1 + rest.attempts, d :: rest.delays, rest.outcome⟩
      else ⟨1, [], .error e⟩

/-- Function `retryWithBackoff` from `src/retry.ts`: run up to `maxRetries + 1`
attempts (loop indices 0..maxRetries) of the underlying call. -/
def retryWithBackoff {α : Type} (results : Nat → Except MVSEPErr α)
    (config : RetryConfig) (isRetryable : MVSEPErr → Bool)
    (now : Int) (dateParse : String → Option Int) :
    RetryTrace α :=
  retryLoop results isRetryable config.retryDelay now dateParse 0 config.maxRetries

/-- An in-flight asynchronous operation, modelled by the instant at which it
settles (milliseconds from the start of the race) and the value or error it
settles with. -/
structure AsyncOp (α : Type) where
  settleTime : Nat
  result : Except MVSEPErr α

/-- Outcome of `withTimeout`: the settled value or error, and whether the
pending timer was cancelled (`clearTimeout` in the `finally` block). -/
structure TimeoutRun (α : Type) where
  result : Except MVSEPErr α
  timerCleared : Bool

/-- Function `withTimeout` from `src/retry.ts`: race the operation against a timer of
`timeoutMs` milliseconds.  The race resolves to whichever settles first; the
timer fires at `timeoutMs`, so the operation wins exactly when it settles
strictly earlier.  The `finally` block clears the timer on every path. -/
def withTimeout {α : Type} (op : AsyncOp α) (timeoutMs : Nat)
    (timeoutError : MVSEPErr) :
    TimeoutRun α :=
  ⟨if op.settleTime < timeoutMs then op.result else .error timeoutError, true⟩

/-- Union `SeparationStatusType` from `src/types.ts`:
`'waiting' | 'processing' | 'done' | 'error'`. -/
inductive SeparationStatusType where
  | waiting
  | processing
  | done
  | error
  deriving DecidableEq, Repr

/-- Shape `SeparationResponse` from `src/types.ts` (the `data` payload is kept
opaque). -/
structure SeparationResponse where
  success : Option Bool
  status : SeparationStatusType
  data : Option String
  deriving DecidableEq, Repr

/-- The snapshot object `{hash, status, data}` passed to `onProgress`
(`SeparationStatus` in `src/types.ts`). -/
structure SeparationStatus where
  hash : String
  status : SeparationStatusType
  data : Option String
  deriving DecidableEq, Repr

/-- Trace of one `waitForSeparation` call: how many status fetches were
issued, the snapshots the progress callback was invoked with (in order),
and the final outcome. -/
structure PollTrace where
  fetches : Nat
  progress : List SeparationStatus
  outcome : Except MVSEPErr SeparationResponse
  deriving Repr

/-- The polling loop body of `waitForSeparation` (`src/client.ts` lines
480–514).  `getSep k` is the response of the k-th status fetch; `elapsed`
is the wall-clock time since session start (each fetch is instantaneous in
this model, time advances by `interval` on each `sleep`).  Before each
fetch the deadline is checked (`Date.now() - startTime > maxDuration`);
then the status is fetched; then, when present, the progress callback is
invoked with the `{hash, status, data}` snapshot (its failure propagates:
the call is not wrapped in any handler); then `done` returns the response,
`error` throws a `SeparationError` carrying the hash, and any other state
sleeps for `interval` and loops. -/
def waitLoop (getSep : Nat → SeparationResponse)
    (onProgress : Option (SeparationStatus → Except MVSEPErr Unit))
    (hash : String) (interval maxDuration : Nat) (hpos : 0 < interval)
    (elapsed k : Nat) : PollTrace :=
  if _h : maxDuration < elapsed then
    ⟨0, [], .error (.timeout
      ("Separation job timed out after " ++ toString maxDuration ++ "ms"))⟩
  else
    let resp := getSep k
    let snapshot : SeparationStatus := ⟨hash, resp.status, resp.data⟩
    let invoked : List SeparationStatus :=
      match onProgress with
      | none => []
      | some _ => [snapshot]
    let cbOutcome : Except MVSEPErr Unit :=
      match onProgress with
      | none => .ok ()
      | some cb => cb snapshot
    match cbOutcome with
    | .error e => ⟨1, invoked, .error e⟩
    | .ok _ =>
      if resp.status = .done then ⟨1, invoked, .ok resp⟩
      else if resp.status = .error then
        ⟨1, invoked, .error (.separation "Separation job failed" (some hash))⟩
      else
        let rest := waitLoop getSep onProgress hash interval maxDuration hpos
          (elapsed + interval) (k + 1)
        ⟨1 + rest.fetches, invoked ++ rest.progress, rest.outcome⟩
termination_by maxDuration + 1 - elapsed
decreasing_by omega

/-- Defaults from `src/client.ts`. -/
def DEFAULT_BASE_URL : String := "https://mvsep.com"

/-- Default per-attempt timeout (30 s). -/
def DEFAULT_TIMEOUT : Nat := 30000

/-- Default retry count. -/
def DEFAULT_MAX_RETRIES : Nat := 3

/-- Default base backoff delay (1 s). -/
def DEFAULT_RETRY_DELAY : Nat := 1000

/-- Default polling interval (5 s). -/
def DEFAULT_POLL_INTERVAL : Nat := 5000

/-- Default polling deadline (30 min). -/
def DEFAULT_POLL_MAX_DURATION : Nat := 1800000

/-- JavaScript `x || d` for an optional numeric option: an absent value and
the falsy value 0 both yield the default. -/
def orDefault (v : Option Nat) (d : Nat) : Nat :=
  match v with
  | none => d
  | some x => if x = 0 then d else x

/-- JavaScript `x || d` for an optional string option: absent and the falsy
empty string both yield the default. -/
def orDefaultStr (v : Option String) (d : String) : String :=
  match v with
  | none => d
  | some s => if s = "" then d else s

/-- Shape `PollingOptions` from `src/types.ts` (the callback may fail, modelling a
JavaScript callback that throws). -/
structure PollingOptions where
  interval : Option Nat
  maxDuration : Option Nat
  onProgress : Option (SeparationStatus → Except MVSEPErr Unit)

/-- Method `waitForSeparation` from `src/client.ts` lines 471–515: apply the `||`
defaults to `interval` and `maxDuration`, then run the polling loop from
`elapsed = 0`. -/
def waitForSeparation (getSep : Nat → SeparationResponse) (hash : String)
    (options : PollingOptions) : PollTrace :=
  waitLoop getSep options.onProgress hash
    (orDefault options.interval DEFAULT_POLL_INTERVAL)
    (orDefault options.maxDuration DEFAULT_POLL_MAX_DURATION)
    (by
      cases options.interval with
      | none => decide
      | some x =>
        by_cases hx : x = 0
        · simp [orDefault, hx]
          decide
        · simp [orDefault, hx]
          omega)
    0 0

/-- Shape `MVSEPConfig` from `src/types.ts`, restricted to the numeric/string
options the constructor resolves (`customHeaders` is orthogonal to the
claims; a missing `apiToken` is modelled by the falsy empty string). -/
structure MVSEPConfig where
  apiToken : String
  baseURL : Option String
  timeout : Option Nat
  maxRetries : Option Nat
  retryDelay : Option Nat
  debug : Option Bool

/-- The resolved, read-only configuration held by `MVSEPClient`. -/
structure ClientState where
  apiToken : String
  baseURL : String
  timeout : Nat
  maxRetries : Nat
  retryDelay : Nat
  debug : Bool
  deriving DecidableEq, Repr

/-- The `MVSEPClient` constructor (`src/client.ts` lines 76–88): reject a
falsy token with a `ValidationError`; coalesce `baseURL`, `timeout`,
`retryDelay` and `debug` with `||`, but `maxRetries` with `??` (nullish
coalescing), so an explicit 0 survives only for `maxRetries`. -/
def mkClient (config : MVSEPConfig) : Except MVSEPErr ClientState :=
  if config.apiToken = "" then
    .error (.validation "API token is required" none)
  else
    .ok ⟨config.apiToken,
         orDefaultStr config.baseURL DEFAULT_BASE_URL,
         orDefault config.timeout DEFAULT_TIMEOUT,
         config.maxRetries.getD DEFAULT_MAX_RETRIES,
         orDefault config.retryDelay DEFAULT_RETRY_DELAY,
         (config.debug.getD false || false)⟩

/-- Concrete status-fetch sequence `waiting, processing, done, done, …`. -/
def seqWPD (n : Nat) : SeparationResponse :=
  if n = 0 then ⟨some true, .waiting, none⟩
  else if n = 1 then ⟨some true, .processing, none⟩
  else ⟨some true, .done, none⟩

/-- A progress callback that always returns normally. -/
def okCB : SeparationStatus → Except MVSEPErr Unit := fun _ => .ok ()

end MVSEP

namespace MVSEP

/-! ## General lemmas about the embedded operations -/

/-- A `503` response is classified as a plain `APIError` carrying body and
headers. -/
theorem classify503 (now : Int) (dp : String → Option Int) (stext : String)
    (msg : Option String) (errs : Option (List String)) (body : Option String)
    (hdrs : List (String × String)) :
    classifyStatus now dp 503 stext msg errs body hdrs =
      .api 503 stext (msg.getD "API request failed with status 503") body hdrs := by
  simp [classifyStatus]
  rfl

/-- A `400` response is classified as a `ValidationError` carrying the
body's field errors. -/
theorem classify400 (now : Int) (dp : String → Option Int) (stext : String)
    (msg : Option String) (errs : Option (List String)) (body : Option String)
    (hdrs : List (String × String)) :
    classifyStatus now dp 400 stext msg errs body hdrs =
      .validation (msg.getD "Validation failed") errs := by
  simp [classifyStatus]

/-- A 503-status `APIError` is retryable. -/
theorem isRetryable_api503 (stext msg : String) (body : Option String)
    (hdrs : List (String × String)) :
    isRetryableError (.api 503 stext msg body hdrs) = true := by
  simp [isRetryableError, errStatus, errCode, RETRYABLE_STATUS_CODES]

/-- A `ValidationError` is not retryable. -/
theorem isRetryable_validation (msg : String) (errs : Option (List String)) :
    isRetryableError (.validation msg errs) = false := by
  simp [isRetryableError, errStatus, errCode, RETRYABLE_ERROR_CODES]

/-- Once the deadline is exceeded, the polling loop fails with a
`TimeoutError` without issuing another fetch. -/
theorem waitLoop_deadline (g : Nat → SeparationResponse)
    (cb : Option (SeparationStatus → Except MVSEPErr Unit)) (hash : String)
    (i m : Nat) (hpos : 0 < i) (elapsed k : Nat) (h : m < elapsed) :
    waitLoop g cb hash i m hpos elapsed k =
      ⟨0, [], .error (.timeout
        ("Separation job timed out after " ++ toString m ++ "ms"))⟩ := by
  rw [waitLoop]
  simp [h]

/-- A `done` fetch within the deadline ends the loop, returning the
response, after invoking the callback with the `done` snapshot. -/
theorem waitLoop_step_done (g : Nat → SeparationResponse)
    (cb : SeparationStatus → Except MVSEPErr Unit) (hash : String)
    (i m : Nat) (hpos : 0 < i) (elapsed k : Nat) (h : elapsed ≤ m)
    (hcb : cb ⟨hash, (g k).status, (g k).data⟩ = .ok ())
    (hst : (g k).status = .done) :
    waitLoop g (some cb) hash i m hpos elapsed k =
      ⟨1, [⟨hash, (g k).status, (g k).data⟩], .ok (g k)⟩ := by
  simp only [hst] at hcb
  rw [waitLoop]
  simp [Nat.not_lt.mpr h, hst, hcb]

/-- A non-terminal fetch within the deadline invokes the callback, sleeps
and recurses. -/
theorem waitLoop_step_next (g : Nat → SeparationResponse)
    (cb : SeparationStatus → Except MVSEPErr Unit) (hash : String)
    (i m : Nat) (hpos : 0 < i) (elapsed k : Nat) (h : elapsed ≤ m)
    (hcb : cb ⟨hash, (g k).status, (g k).data⟩ = .ok ())
    (hd : (g k).status ≠ .done) (he : (g k).status ≠ .error) :
    waitLoop g (some cb) hash i m hpos elapsed k =
      ⟨1 + (waitLoop g (some cb) hash i m hpos (elapsed + i) (k + 1)).fetches,
       ⟨hash, (g k).status, (g k).data⟩ ::
         (waitLoop g (some cb) hash i m hpos (elapsed + i) (k + 1)).progress,
       (waitLoop g (some cb) hash i m hpos (elapsed + i) (k + 1)).outcome⟩ := by
  rw [waitLoop]
  simp [Nat.not_lt.mpr h, hcb, hd, he]

/-- Without a progress callback, a non-terminal fetch within the deadline
sleeps and recurses. -/
theorem waitLoop_none_next (g : Nat → SeparationResponse) (hash : String)
    (i m : Nat) (hpos : 0 < i) (elapsed k : Nat) (h : elapsed ≤ m)
    (hd : (g k).status ≠ .done) (he : (g k).status ≠ .error) :
    waitLoop g none hash i m hpos elapsed k =
      ⟨1 + (waitLoop g none hash i m hpos (elapsed + i) (k + 1)).fetches,
       (waitLoop g none hash i m hpos (elapsed + i) (k + 1)).progress,
       (waitLoop g none hash i m hpos (elapsed + i) (k + 1)).outcome⟩ := by
  rw [waitLoop]
  simp [Nat.not_lt.mpr h, hd, he]

/-- A throwing progress callback ends the loop at once with its error. -/
theorem waitLoop_cb_throw (g : Nat → SeparationResponse)
    (cb : SeparationStatus → Except MVSEPErr Unit) (hash : String)
    (i m : Nat) (hpos : 0 < i) (elapsed k : Nat) (e : MVSEPErr)
    (h : elapsed ≤ m)
    (hcb : cb ⟨hash, (g k).status, (g k).data⟩ = .error e) :
    waitLoop g (some cb) hash i m hpos elapsed k =
      ⟨1, [⟨hash, (g k).status, (g k).data⟩], .error e⟩ := by
  rw [waitLoop]
  simp [Nat.not_lt.mpr h, hcb]

/-- The polling loop does not depend on the positivity proof and respects
equal numeric arguments. -/
theorem waitLoop_congr (g : Nat → SeparationResponse)
    (cb : Option (SeparationStatus → Except MVSEPErr Unit)) (hash : String)
    {i i' m m' : Nat} (hpos : 0 < i) (hpos' : 0 < i')
    (hi : i = i') (hm : m = m') (elapsed k : Nat) :
    waitLoop g cb hash i m hpos elapsed k =
      waitLoop g cb hash i' m' hpos' elapsed k := by
  subst hi
  subst hm
  rfl

/-- A job that never reaches a terminal state drives the polling loop to a
timeout: proof by induction on the remaining time budget. -/
theorem waitLoop_none_timeout_aux (g : Nat → SeparationResponse)
    (hash : String) (i m : Nat) (hpos : 0 < i)
    (hrun : ∀ n, (g n).status ≠ .done ∧ (g n).status ≠ .error) :
    ∀ fuel elapsed k, m + 1 - elapsed ≤ fuel →
      (waitLoop g none hash i m hpos elapsed k).outcome =
        .error (.timeout
          ("Separation job timed out after " ++ toString m ++ "ms")) := by
  intro fuel
  induction fuel with
  | zero =>
    intro elapsed k hle
    rw [waitLoop_deadline g none hash i m hpos elapsed k (by omega)]
  | succ f ih =>
    intro elapsed k hle
    by_cases h : m < elapsed
    · rw [waitLoop_deadline g none hash i m hpos elapsed k h]
    · rw [waitLoop_none_next g hash i m hpos elapsed k (by omega)
        (hrun k).1 (hrun k).2]
      exact ih (elapsed + i) (k + 1) (by omega)

/-- Effective value of a `||`-defaulted option that is explicitly nonzero. -/
theorem orDefault_of_ne (v d : Nat) (hv : v ≠ 0) : orDefault (some v) d = v := by
  simp [orDefault, hv]

/-! ## Claims -/

/-- Claim C3: every error obtained by classifying an HTTP response whose
status lies in {408, 429, 500, 502, 503, 504} is retryable, and every error
obtained from a status in {400, 401, 403, 422} (validation and
authentication errors) is not. -/
theorem isRetryableError_classification (now : Int) (dp : String → Option Int)
    (st : Nat) (stext : String) (msg : Option String)
    (errs : Option (List String)) (body : Option String)
    (hdrs : List (String × String)) :
    (st ∈ [408, 429, 500, 502, 503, 504] →
      isRetryableError (classifyStatus now dp st stext msg errs body hdrs) = true) ∧
    (st ∈ [400, 401, 403, 422] →
      isRetryableError (classifyStatus now dp st stext msg errs body hdrs) = false) := by
  constructor
  · intro hmem
    simp only [List.mem_cons, List.not_mem_nil, or_false] at hmem
    rcases hmem with h | h | h | h | h | h <;> subst h <;>
      simp [classifyStatus, isRetryableError, errStatus, errCode,
        RETRYABLE_STATUS_CODES]
  · intro hmem
    simp only [List.mem_cons, List.not_mem_nil, or_false] at hmem
    rcases hmem with h | h | h | h <;> subst h <;>
      simp [classifyStatus, isRetryableError, errStatus, errCode,
        RETRYABLE_STATUS_CODES, RETRYABLE_ERROR_CODES]

/-- Witness for C3 at statuses 503 and 400. -/
theorem isRetryableError_classification_witness :
    isRetryableError
      (classifyStatus 0 (fun _ => none) 503 "Service Unavailable" none none none []) = true ∧
    isRetryableError
      (classifyStatus 0 (fun _ => none) 400 "Bad Request" none none none []) = false :=
  ⟨(isRetryableError_classification 0 (fun _ => none) 503 "Service Unavailable"
      none none none []).1 (by decide),
   (isRetryableError_classification 0 (fun _ => none) 400 "Bad Request"
      none none none []).2 (by decide)⟩

/-- Claim C4: `calculateBackoff` is non-decreasing in the attempt index,
never exceeds the 32-second cap, and equals the uncapped exponential
`base * 2 ^ attempt` clamped at 32000. -/
theorem calculateBackoff_monotone_capped (b i j : Nat) (hij : i ≤ j) :
    calculateBackoff i b ≤ calculateBackoff j b ∧
    calculateBackoff j b ≤ 32000 ∧
    calculateBackoff i b = min (b * 2 ^ i) 32000 := by
  refine ⟨?_, min_le_right _ _, rfl⟩
  have hp : b * 2 ^ i ≤ b * 2 ^ j :=
    Nat.mul_le_mul_left b (Nat.pow_le_pow_right (by norm_num) hij)
  exact min_le_min hp le_rfl

/-- Witness for C4 at base 7 and attempts 2 ≤ 5. -/
theorem calculateBackoff_monotone_capped_witness :
    calculateBackoff 2 7 ≤ calculateBackoff 5 7 ∧
    calculateBackoff 5 7 ≤ 32000 ∧
    calculateBackoff 2 7 = min (7 * 2 ^ 2) 32000 :=
  calculateBackoff_monotone_capped 7 2 5 (by decide)

/-- Claim C5 counterexample: the claim says the result is never negative
for every input, but the integer-seconds branch does not clamp: the header
value "-5" parses to -5 seconds and yields -5000 ms. -/
theorem parseRetryAfter_negative_cex :
    parseRetryAfter 0 (fun _ => none) (some "-5") = -5000 ∧
    parseRetryAfter 0 (fun _ => none) (some "-5") < 0 := by
  constructor <;> decide

/-- Claim C5 (amended): `parseRetryAfter "5"` is 5000 ms; absent,
unparseable and past-date inputs give 0; an integer-seconds input gives
seconds×1000, which is non-negative whenever the parsed value is; and every
input that does not parse as an integer gives a non-negative result.  (The
original "never negative for every input" fails only on strings parsing to
negative seconds.) -/
theorem parseRetryAfter_behavior (now : Int) (dp : String → Option Int)
    (s : String) :
    parseRetryAfter now dp (some "5") = 5000 ∧
    parseRetryAfter now dp none = 0 ∧
    (∀ t : Int, parseIntJS s = none → dp s = some t → t ≤ now →
      parseRetryAfter now dp (some s) = 0) ∧
    (parseIntJS s = none → dp s = none → parseRetryAfter now dp (some s) = 0) ∧
    (∀ k : Int, parseIntJS s = some k →
      parseRetryAfter now dp (some s) = k * 1000) ∧
    (parseIntJS s = none → 0 ≤ parseRetryAfter now dp (some s)) := by
  refine ⟨rfl, rfl, ?_, ?_, ?_, ?_⟩
  · intro t h1 h2 h3
    by_cases hs : s = ""
    · simp [parseRetryAfter, hs]
    · simp only [parseRetryAfter, hs, if_false, h1, h2]
      rw [max_eq_left (by omega)]
  · intro h1 h2
    by_cases hs : s = "" <;> simp [parseRetryAfter, hs, h1, h2]
  · intro k h1
    by_cases hs : s = ""
    · rw [hs] at h1
      exact Option.noConfusion h1
    · simp [parseRetryAfter, hs, h1]
  · intro h1
    by_cases hs : s = ""
    · simp [parseRetryAfter, hs]
    · rcases hdp : dp s with _ | t <;>
        simp [parseRetryAfter, hs, h1, hdp, le_max_left]

/-- Witness for C5: a past date yields 0, an unparseable string yields 0,
and "7" yields 7000 ms. -/
theorem parseRetryAfter_behavior_witness :
    parseRetryAfter 10 (fun _ => some 3) (some "x") = 0 ∧
    parseRetryAfter 0 (fun _ => none) (some "x") = 0 ∧
    parseRetryAfter 0 (fun _ => none) (some "7") = 7 * 1000 :=
  ⟨(parseRetryAfter_behavior 10 (fun _ => some 3) "x").2.2.1 3 rfl rfl (by decide),
   (parseRetryAfter_behavior 0 (fun _ => none) "x").2.2.2.1 rfl rfl,
   (parseRetryAfter_behavior 0 (fun _ => none) "7").2.2.2.2.1 7 rfl⟩

/-- Claim C7: `withTimeout` produces the operation's own result (value or
error) when the operation settles before the duration elapses, fails with
the timeout error otherwise, and cancels the pending timer on every
outcome. -/
theorem withTimeout_race {α : Type} (op : AsyncOp α) (d : Nat) (te : MVSEPErr) :
    (op.settleTime < d → (withTimeout op d te).result = op.result) ∧
    (d ≤ op.settleTime → (withTimeout op d te).result = .error te) ∧
    (withTimeout op d te).timerCleared = true := by
  refine ⟨fun h => ?_, fun h => ?_, rfl⟩
  · simp [withTimeout, h]
  · simp [withTimeout, Nat.not_lt.mpr h]

/-- Witness for C7: an operation settling at 3 ms beats a 10 ms timer; one
settling at 10 ms loses to it. -/
theorem withTimeout_race_witness :
    (withTimeout ⟨3, .ok (7 : Nat)⟩ 10 (.timeout "t")).result = .ok 7 ∧
    (withTimeout ⟨10, .ok (7 : Nat)⟩ 10 (.timeout "t")).result =
      .error (.timeout "t") :=
  ⟨(withTimeout_race ⟨3, .ok 7⟩ 10 (.timeout "t")).1 (by decide),
   (withTimeout_race ⟨10, .ok 7⟩ 10 (.timeout "t")).2.1 (by decide)⟩

/-- Claim C2 counterexample: with `maxRetries = 2` the executor performs at
most 3 attempts, so against a call failing with 503 on its first three
invocations it exhausts the budget and propagates the third 503 error — the
fourth invocation's 200 payload is never seen, contradicting "returns the
200 payload as a success". -/
theorem retryWithBackoff_three503_cex :
    (retryWithBackoff
      (fun n => if n < 3 then
          .error (classifyStatus 0 (fun _ => none) 503 "Service Unavailable"
            none none none [])
        else .ok ([] : List Nat))
      ⟨2, 1000, 30000⟩ isRetryableError 0 (fun _ => none)).attempts = 3 ∧
    (retryWithBackoff
      (fun n => if n < 3 then
          .error (classifyStatus 0 (fun _ => none) 503 "Service Unavailable"
            none none none [])
        else .ok ([] : List Nat))
      ⟨2, 1000, 30000⟩ isRetryableError 0 (fun _ => none)).outcome =
      .error (.api 503 "Service Unavailable"
        "API request failed with status 503" none []) := by
  constructor <;> rfl

/-- Claim C2 (amended): with `maxRetries = 2` and a call that fails with
503 on its first two invocations and returns the success payload on the
third, the executor performs exactly 3 attempts and returns that payload.
(The original claim's three consecutive 503s exhaust the 3-attempt budget;
the executor then raises the last 503 instead of returning the 200.) -/
theorem retryWithBackoff_recovers_within_budget {α : Type}
    (f : Nat → Except MVSEPErr α) (v : α) (rd tmo : Nat) (now c0 c1 : Int)
    (dp d0 d1 : String → Option Int) (s0 s1 : String) (m0 m1 : Option String)
    (e0 e1 : Option (List String)) (b0 b1 : Option String)
    (hs0 hs1 : List (String × String))
    (h0 : f 0 = .error (classifyStatus c0 d0 503 s0 m0 e0 b0 hs0))
    (h1 : f 1 = .error (classifyStatus c1 d1 503 s1 m1 e1 b1 hs1))
    (h2 : f 2 = .ok v) :
    (retryWithBackoff f ⟨2, rd, tmo⟩ isRetryableError now dp).attempts = 3 ∧
    (retryWithBackoff f ⟨2, rd, tmo⟩ isRetryableError now dp).outcome = .ok v := by
  rw [classify503] at h0 h1
  constructor <;>
    simp [retryWithBackoff, retryLoop, h0, h1, h2, isRetryable_api503]

/-- Witness for C2: two 503s then a success payload, at `maxRetries = 2`. -/
theorem retryWithBackoff_recovers_within_budget_witness :
    (retryWithBackoff
      (fun n => if n < 2 then
          .error (classifyStatus 0 (fun _ => none) 503 "Service Unavailable"
            none none none [])
        else .ok [1])
      ⟨2, 1000, 30000⟩ isRetryableError 0 (fun _ => none)).attempts = 3 ∧
    (retryWithBackoff
      (fun n => if n < 2 then
          .error (classifyStatus 0 (fun _ => none) 503 "Service Unavailable"
            none none none [])
        else .ok [1])
      ⟨2, 1000, 30000⟩ isRetryableError 0 (fun _ => none)).outcome =
      .ok ([1] : List Nat) :=
  retryWithBackoff_recovers_within_budget
    (fun n => if n < 2 then
        .error (classifyStatus 0 (fun _ => none) 503 "Service Unavailable"
          none none none [])
      else .ok [1])
    [1] 1000 30000 0 0 0 (fun _ => none) (fun _ => none) (fun _ => none)
    "Service Unavailable" "Service Unavailable" none none none none none none
    [] [] rfl rfl rfl

/-- Claim C6: whatever the retry budget, a first attempt classified from an
HTTP 400 response is not retryable: the executor performs exactly 1 attempt
and raises a `ValidationError` carrying the body's field errors. -/
theorem retryWithBackoff_validation_single_attempt {α : Type}
    (f : Nat → Except MVSEPErr α) (mr rd tmo : Nat) (now cnow : Int)
    (dp cdp : String → Option Int) (stext : String) (msg : Option String)
    (errs : Option (List String)) (body : Option String)
    (hdrs : List (String × String))
    (h0 : f 0 = .error (classifyStatus cnow cdp 400 stext msg errs body hdrs)) :
    (retryWithBackoff f ⟨mr, rd, tmo⟩ isRetryableError now dp).attempts = 1 ∧
    (retryWithBackoff f ⟨mr, rd, tmo⟩ isRetryableError now dp).outcome =
      .error (.validation (msg.getD "Validation failed") errs) := by
  rw [classify400] at h0
  cases mr with
  | zero => constructor <;> simp [retryWithBackoff, retryLoop, h0]
  | succ r =>
    constructor <;>
      simp [retryWithBackoff, retryLoop, h0, isRetryable_validation]

/-- Witness for C6: a single 400 response with the default budget of 3
retries still yields one attempt and a `ValidationError`. -/
theorem retryWithBackoff_validation_single_attempt_witness :
    (retryWithBackoff
      (fun _ => .error (classifyStatus 0 (fun _ => none) 400 "Bad Request"
        none none none []) : Nat → Except MVSEPErr Nat)
      ⟨3, 1000, 30000⟩ isRetryableError 0 (fun _ => none)).attempts = 1 ∧
    (retryWithBackoff
      (fun _ => .error (classifyStatus 0 (fun _ => none) 400 "Bad Request"
        none none none []) : Nat → Except MVSEPErr Nat)
      ⟨3, 1000, 30000⟩ isRetryableError 0 (fun _ => none)).outcome =
      .error (.validation "Validation failed" none) :=
  retryWithBackoff_validation_single_attempt
    (fun _ => .error (classifyStatus 0 (fun _ => none) 400 "Bad Request"
      none none none []))
    3 1000 30000 0 0 (fun _ => none) (fun _ => none) "Bad Request"
    none none none [] rfl

/-- Claim C10: an explicit `maxRetries` of 0 is honored (nullish
coalescing; the executor then performs exactly one attempt), while explicit
zero `timeout`, `retryDelay`, empty `baseURL`, zero polling `interval` and
zero `maxDuration` are silently replaced by their defaults (30000 ms,
1000 ms, the production host, 5000 ms, 1800000 ms) because they are
coalesced with logical-or. -/
theorem config_zero_option_coalescing (f : Nat → Except MVSEPErr Nat)
    (rd tmo : Nat) (now : Int) (dp : String → Option Int)
    (g : Nat → SeparationResponse) (hash : String)
    (cb : Option (SeparationStatus → Except MVSEPErr Unit)) :
    mkClient ⟨"token", none, none, some 0, none, none⟩ =
      .ok ⟨"token", DEFAULT_BASE_URL, DEFAULT_TIMEOUT, 0,
        DEFAULT_RETRY_DELAY, false⟩ ∧
    (retryWithBackoff f ⟨0, rd, tmo⟩ isRetryableError now dp).attempts = 1 ∧
    mkClient ⟨"token", some "", some 0, none, some 0, none⟩ =
      .ok ⟨"token", DEFAULT_BASE_URL, DEFAULT_TIMEOUT, DEFAULT_MAX_RETRIES,
        DEFAULT_RETRY_DELAY, false⟩ ∧
    waitForSeparation g hash ⟨some 0, some 0, cb⟩ =
      waitForSeparation g hash ⟨none, none, cb⟩ ∧
    DEFAULT_TIMEOUT = 30000 ∧ DEFAULT_RETRY_DELAY = 1000 ∧
    DEFAULT_BASE_URL = "https://mvsep.com" ∧
    DEFAULT_POLL_INTERVAL = 5000 ∧ DEFAULT_POLL_MAX_DURATION = 1800000 := by
  refine ⟨rfl, ?_, rfl, rfl, rfl, rfl, rfl, rfl, rfl⟩
  cases h : f 0 <;> simp [retryWithBackoff, retryLoop, h]

/-- Claim C1 counterexample: polling the sequence
`waiting, processing, done` issues 3 fetches and returns the `done`
snapshot, but the progress callback is invoked three times — including for
the `done` snapshot — not twice: `waitForSeparation` calls `onProgress`
before checking for the terminal state. -/
theorem waitForSeparation_done_callback_cex :
    (waitForSeparation seqWPD "h" ⟨some 10, some 1000, some okCB⟩).fetches = 3 ∧
    (waitForSeparation seqWPD "h" ⟨some 10, some 1000, some okCB⟩).progress =
      [⟨"h", .waiting, none⟩, ⟨"h", .processing, none⟩, ⟨"h", .done, none⟩] ∧
    (waitForSeparation seqWPD "h" ⟨some 10, some 1000, some okCB⟩).progress.length ≠ 2 := by
  have hw : waitForSeparation seqWPD "h" ⟨some 10, some 1000, some okCB⟩ =
      waitLoop seqWPD (some okCB) "h" 10 1000 (by decide) 0 0 := rfl
  have e0 := waitLoop_step_next seqWPD okCB "h" 10 1000 (by decide) 0 0
    (by decide) rfl (by decide) (by decide)
  have e1 := waitLoop_step_next seqWPD okCB "h" 10 1000 (by decide) (0 + 10) (0 + 1)
    (by decide) rfl (by decide) (by decide)
  have e2 := waitLoop_step_done seqWPD okCB "h" 10 1000 (by decide) (0 + 10 + 10)
    (0 + 1 + 1) (by decide) rfl (by decide)
  rw [hw, e0, e1, e2]
  refine ⟨rfl, ?_, by decide⟩
  simp [seqWPD]

/-- Claim C1 (amended): for a polling session whose successive fetches
return `waiting`, `processing`, `done` (with twice the effective interval
within the deadline), `waitForSeparation` issues exactly 3 status fetches,
invokes the progress callback exactly three times — once per fetch,
including with the `done` snapshot — and returns the `done` snapshot.  (The
original claim's "exactly twice, not for the done one" fails: the callback
runs before the terminal-state check.) -/
theorem waitForSeparation_pending_running_done (g : Nat → SeparationResponse)
    (hash : String) (cb : SeparationStatus → Except MVSEPErr Unit)
    (i m : Nat) (hi : i ≠ 0) (hm : m ≠ 0) (him : 2 * i ≤ m)
    (hcb : ∀ s, cb s = .ok ())
    (h0 : (g 0).status = .waiting) (h1 : (g 1).status = .processing)
    (h2 : (g 2).status = .done) :
    waitForSeparation g hash ⟨some i, some m, some cb⟩ =
      ⟨3, [⟨hash, (g 0).status, (g 0).data⟩, ⟨hash, (g 1).status, (g 1).data⟩,
           ⟨hash, (g 2).status, (g 2).data⟩], .ok (g 2)⟩ := by
  unfold waitForSeparation
  rw [waitLoop_congr g (some cb) hash _ (show 0 < i by omega)
    (orDefault_of_ne i _ hi) (orDefault_of_ne m _ hm) 0 0]
  rw [waitLoop_step_next g cb hash i m _ 0 0 (by omega) (hcb _)
    (by simp [h0]) (by simp [h0])]
  rw [waitLoop_step_next g cb hash i m _ (0 + i) (0 + 1) (by omega) (hcb _)
    (by simp [h1]) (by simp [h1])]
  rw [waitLoop_step_done g cb hash i m _ (0 + i + i) (0 + 1 + 1) (by omega)
    (hcb _) (by simp [h2])]
  simp

/-- Witness for C1 at the concrete sequence `waiting, processing, done`
with interval 10 ms and deadline 1000 ms. -/
theorem waitForSeparation_pending_running_done_witness :
    waitForSeparation seqWPD "w" ⟨some 10, some 1000, some okCB⟩ =
      ⟨3, [⟨"w", .waiting, none⟩, ⟨"w", .processing, none⟩,
           ⟨"w", .done, none⟩], .ok ⟨some true, .done, none⟩⟩ :=
  waitForSeparation_pending_running_done seqWPD "w" okCB 10 1000
    (by decide) (by decide) (by decide) (fun _ => rfl) rfl rfl rfl

/-- Claim C8: the elapsed time is checked against `maxDuration` before each
fetch — once exceeded the loop fails with a `TimeoutError` having issued no
further fetch — and a job that never reaches a terminal state makes the
whole call fail with a `TimeoutError` rather than return a success. -/
theorem waitForSeparation_deadline_timeout (g : Nat → SeparationResponse)
    (hash : String) (i m : Nat) (hi : i ≠ 0) (hm : m ≠ 0)
    (hrun : ∀ n, (g n).status ≠ .done ∧ (g n).status ≠ .error) :
    (waitForSeparation g hash ⟨some i, some m, none⟩).outcome =
      .error (.timeout
        ("Separation job timed out after " ++ toString m ++ "ms")) ∧
    (∀ (hpos : 0 < i) (elapsed k : Nat), m < elapsed →
      waitLoop g none hash i m hpos elapsed k =
        ⟨0, [], .error (.timeout
          ("Separation job timed out after " ++ toString m ++ "ms"))⟩) := by
  constructor
  · unfold waitForSeparation
    rw [waitLoop_congr g none hash _ (show 0 < i by omega)
      (orDefault_of_ne i _ hi) (orDefault_of_ne m _ hm) 0 0]
    exact waitLoop_none_timeout_aux g hash i m _ hrun (m + 1) 0 0 (by omega)
  · intro hpos elapsed k h
    exact waitLoop_deadline g none hash i m hpos elapsed k h

/-- Witness for C8: a job stuck in `processing`, interval 10 ms, deadline
50 ms — the call times out instead of succeeding, and past the deadline no
fetch is issued. -/
theorem waitForSeparation_deadline_timeout_witness :
    (waitForSeparation (fun _ => ⟨some true, .processing, none⟩) "h"
      ⟨some 10, some 50, none⟩).outcome =
      .error (.timeout ("Separation job timed out after " ++ toString 50 ++ "ms")) ∧
    waitLoop (fun _ => ⟨some true, .processing, none⟩) none "h" 10 50
      (by decide) 60 6 =
      ⟨0, [], .error (.timeout
        ("Separation job timed out after " ++ toString 50 ++ "ms"))⟩ :=
  ⟨(waitForSeparation_deadline_timeout (fun _ => ⟨some true, .processing, none⟩)
      "h" 10 50 (by decide) (by decide)
      (fun _ => ⟨by simp, by simp⟩)).1,
   (waitForSeparation_deadline_timeout (fun _ => ⟨some true, .processing, none⟩)
      "h" 10 50 (by decide) (by decide)
      (fun _ => ⟨by simp, by simp⟩)).2 (by decide) 60 6 (by decide)⟩

/-- Claim C9: a progress callback that raises aborts the polling loop at
once and its error propagates to the caller of `waitForSeparation` — one
fetch for that iteration, no further polling, the error never swallowed. -/
theorem waitForSeparation_progress_error_propagates
    (g : Nat → SeparationResponse) (hash : String)
    (cb : SeparationStatus → Except MVSEPErr Unit) (e : MVSEPErr)
    (i m : Nat) (hi : i ≠ 0) (hm : m ≠ 0)
    (hcb : cb ⟨hash, (g 0).status, (g 0).data⟩ = .error e) :
    waitForSeparation g hash ⟨some i, some m, some cb⟩ =
      ⟨1, [⟨hash, (g 0).status, (g 0).data⟩], .error e⟩ ∧
    (∀ (hpos : 0 < i) (elapsed k : Nat), elapsed ≤ m →
      cb ⟨hash, (g k).status, (g k).data⟩ = .error e →
      waitLoop g (some cb) hash i m hpos elapsed k =
        ⟨1, [⟨hash, (g k).status, (g k).data⟩], .error e⟩) := by
  constructor
  · unfold waitForSeparation
    rw [waitLoop_congr g (some cb) hash _ (show 0 < i by omega)
      (orDefault_of_ne i _ hi) (orDefault_of_ne m _ hm) 0 0]
    exact waitLoop_cb_throw g cb hash i m _ 0 0 e (by omega) hcb
  · intro hpos elapsed k h hk
    exact waitLoop_cb_throw g cb hash i m hpos elapsed k e h hk

/-- Witness for C9: a callback that always throws a `FileUploadError`-class
error aborts the session after one fetch with that error. -/
theorem waitForSeparation_progress_error_propagates_witness :
    waitForSeparation seqWPD "h"
      ⟨some 10, some 1000, some (fun _ => .error (.network "boom"))⟩ =
      ⟨1, [⟨"h", .waiting, none⟩], .error (.network "boom")⟩ :=
  (waitForSeparation_progress_error_propagates seqWPD "h"
    (fun _ => .error (.network "boom")) (.network "boom") 10 1000
    (by decide) (by decide) rfl).1

end MVSEP
